import Mathlib

/-!
Shallow embedding of the BOOKLY backend (FastAPI + JWT + Redis blocklist),
covering the token issuance/validation/revocation flow, the auth endpoints
and the persisted user model, as implemented under src/.

Time is modelled as a natural number of Unix seconds.  External services
(Redis, PyJWT, bcrypt) are modelled by executable abstractions that keep
exactly the behavior the embedded code observes.
-/

namespace Bookly

/-! ## Configuration (src/config.py)

`Settings` keeps the fields the token flow reads.  Defaults are the ones
declared in src/config.py: ACCESS_TOKEN_EXPIRY defaults to 3600 seconds,
REFRESH_TOKEN_EXPIRY to 2 (days). -/

structure Settings where
  JWT_SECRET_KEY : String := ""
  JWT_ALGORITHM : String := ""
  ACCESS_TOKEN_EXPIRY : Nat := 3600
  REFRESH_TOKEN_EXPIRY : Nat := 2
deriving Repr, DecidableEq

/-- The singleton `Config = Settings()` created at the bottom of src/config.py,
with every field at its declared default. -/
def defaultConfig : Settings := {}

/-! ## Redis-backed blocklist (src/db/redis.py)

The store is modelled as an association list from key to (value, absolute
expiry instant).  `SET name value EX ex` at time `now` stores the value with
expiry `now + ex`; `GET` returns the value while `now` is strictly before
that instant and `None` afterwards (Redis removes the key once its TTL has
elapsed). -/

structure BlockEntry where
  value : String
  expiresAt : Nat
deriving Repr, DecidableEq

abbrev Blocklist := List (String × BlockEntry)

def redisSet (bl : Blocklist) (name value : String) (ex : Nat) (now : Nat) : Blocklist :=
  (name, ⟨value, now + ex⟩) :: bl.filter (fun p => p.1 ≠ name)

def redisGet (bl : Blocklist) (name : String) (now : Nat) : Option String :=
  match bl.find? (fun p => p.1 = name) with
  | some (_, e) => if now < e.expiresAt then some e.value else none
  | none => none

/-- `JTI_EXPIRY = 3600`, the module-level constant in src/db/redis.py.  It is a
hard-coded literal; the module imports `Config` but never reads it. -/
def JTI_EXPIRY : Nat := 3600

/-- `add_jti_to_block_list(jti)`: `token_blocklist.set(name=jti, value="", ex=JTI_EXPIRY)`. -/
def add_jti_to_block_list (bl : Blocklist) (jti : String) (now : Nat) : Blocklist :=
  redisSet bl jti "" JTI_EXPIRY now

/-- `token_in_block_list(jti)` as written in src/db/redis.py: it awaits
`token_blocklist.get(name=jti)` but has no `return` statement, so the Python
function always returns `None` (modelled as `none`), whatever the GET found. -/
def token_in_block_list (bl : Blocklist) (jti : String) (now : Nat) : Option String :=
  let _fetched := redisGet bl jti now
  none

/-- Python truthiness of an `Optional[str]`: `None` is falsy, an empty string
is falsy, a nonempty string is truthy. -/
def pyTruthyOptStr : Option String → Bool
  | none => false
  | some s => s ≠ ""

/-! ## JWT codec (model of PyJWT as used by src/auth/utils.py)

A claims set carries exactly the fields `generate_access_token` writes:
`user` (a JSON object of strings), `exp` (Unix seconds), `jti`, `refresh`.
A wire token is either a well-formed JWT (claims plus the key and algorithm
it was signed with) or a malformed string.  `jwt.decode(token, key,
algorithms=[alg])` fails on malformed structure, on an algorithm outside the
allowed list, on a signature made with a different key, and on an elapsed
expiry (PyJWT treats `exp <= now` as expired); each failure raises a
`PyJWTError` subclass. -/

structure Claims where
  user : List (String × String)
  exp : Nat
  jti : String
  refresh : Bool
deriving Repr, DecidableEq

structure Jwt where
  claims : Claims
  key : String
  alg : String
deriving Repr, DecidableEq

inductive TokenString where
  | valid (j : Jwt)
  | malformed (raw : String)
deriving Repr, DecidableEq

inductive PyJWTError where
  | DecodeError
  | InvalidAlgorithmError
  | InvalidSignatureError
  | ExpiredSignatureError
deriving Repr, DecidableEq

def jwtEncode (payload : Claims) (key alg : String) : TokenString :=
  .valid ⟨payload, key, alg⟩

def jwtDecode (t : TokenString) (key alg : String) (now : Nat) :
    Except PyJWTError Claims :=
  match t with
  | .malformed _ => .error .DecodeError
  | .valid j =>
    if j.alg ≠ alg then .error .InvalidAlgorithmError
    else if j.key ≠ key then .error .InvalidSignatureError
    else if j.claims.exp ≤ now then .error .ExpiredSignatureError
    else .ok j.claims

/-! ## Token utilities (src/auth/utils.py) -/

/-- `generate_access_token(user_data, expiry=None, refresh=False)`: builds the
payload `\x7buser, exp = now + (expiry or ACCESS_TOKEN_EXPIRY), jti, refresh\x7d`
and signs it with the configured secret and algorithm.  The fresh random
`uuid4` jti is passed in as `newJti`. -/
def generate_access_token (cfg : Settings) (user_data : List (String × String))
    (expiry : Option Nat) (refresh : Bool) (now : Nat) (newJti : String) : TokenString :=
  let expiry_time := now + (match expiry with | some e => e | none => cfg.ACCESS_TOKEN_EXPIRY)
  jwtEncode { user := user_data, exp := expiry_time, jti := newJti, refresh := refresh }
    cfg.JWT_SECRET_KEY cfg.JWT_ALGORITHM

/-- `decode_token(token)`: calls `jwt.decode` with the configured key and the
one-element algorithm list, returns the claims on success and `None` on any
`PyJWTError` (the `except jwt.PyJWTError` clause). -/
def decode_token (cfg : Settings) (t : TokenString) (now : Nat) : Option Claims :=
  match jwtDecode t cfg.JWT_SECRET_KEY cfg.JWT_ALGORITHM now with
  | .ok token_data => some token_data
  | .error _ => none

/-! ## Password utilities (src/auth/utils.py)

The bcrypt primitives (`bcrypt.hashpw`, `bcrypt.checkpw`) are external
library calls; the embedded wrappers take them as function parameters and
add exactly what the source adds: UTF-8 encoding and truncation of the
password to 72 bytes. -/

def truncate72 (b : ByteArray) : ByteArray :=
  if b.size > 72 then b.extract 0 72 else b

/-- `generate_password_hash(password)`: encode, truncate to 72 bytes, hash
with a fresh salt.  `hashpw` is bcrypt.hashpw and `salt` the fresh
bcrypt.gensalt output. -/
def generate_password_hash (hashpw : ByteArray → String → String)
    (salt : String) (password : String) : String :=
  let password_bytes := password.toUTF8
  let password_bytes := truncate72 password_bytes
  hashpw password_bytes salt

/-- `verify_password(password, hash)`: encode both, truncate the password to
72 bytes, call bcrypt.checkpw. -/
def verify_password (checkpw : ByteArray → ByteArray → Bool)
    (password hash : String) : Bool :=
  let password_bytes := password.toUTF8
  let hash_bytes := hash.toUTF8
  let password_bytes := truncate72 password_bytes
  checkpw password_bytes hash_bytes

/-! ## Persisted user model (src/auth/model.py)

The `User` table declares exactly these columns: uid, username, email,
first_name, last_name, is_veriied (the typo is in the source), created_at,
updated_at.  There is no password or password_hash column. -/

structure User where
  uid : String
  username : String
  email : String
  first_name : String
  last_name : String
  is_veriied : Bool
  created_at : Nat
  updated_at : Option Nat
deriving Repr, DecidableEq

/-- The declared attribute names of the persisted `User` entity, in source
order. -/
def User.fieldNames : List String :=
  ["uid", "username", "email", "first_name", "last_name", "is_veriied",
   "created_at", "updated_at"]

/-- A Python attribute value of a `User` instance. -/
inductive PyValue where
  | str (s : String)
  | bool (b : Bool)
  | nat (n : Nat)
  | pynone
deriving Repr, DecidableEq

/-- Python attribute access `user.<name>` on a `User` row loaded from the
database: `some` the value for a declared column, `none` (AttributeError)
for any other name. -/
def User.getattr (u : User) (name : String) : Option PyValue :=
  if name = "uid" then some (.str u.uid)
  else if name = "username" then some (.str u.username)
  else if name = "email" then some (.str u.email)
  else if name = "first_name" then some (.str u.first_name)
  else if name = "last_name" then some (.str u.last_name)
  else if name = "is_veriied" then some (.bool u.is_veriied)
  else if name = "created_at" then some (.nat u.created_at)
  else if name = "updated_at" then
    some (match u.updated_at with | some t => .nat t | none => .pynone)
  else none

/-! ## Request schemas (src/auth/schema.py) -/

structure UserCreateModel where
  username : String
  email : String
  password : String
  first_name : String
  last_name : String
deriving Repr, DecidableEq

structure UserLoginModel where
  email : String
  password : String
deriving Repr, DecidableEq

/-! ## User service (src/auth/service.py) -/

/-- `UserService.get_user_by_email`: `select(User).where(User.email == email)`,
first row or `None`. -/
def get_user_by_email (db : List User) (email : String) : Option User :=
  db.find? (fun u => u.email = email)

/-- The keyword dictionary `create_user` builds before calling
`User(**user_data_dict)`: `model_dump()`, pop the plain password, and assign
`user_data_dict["password_hash"] = plain_password` — the call to
`generate_password_hash` is commented out in the source, so the value bound
to the `password_hash` key is the plaintext itself. -/
def create_user_dict (ud : UserCreateModel) : List (String × String) :=
  [("username", ud.username), ("email", ud.email),
   ("first_name", ud.first_name), ("last_name", ud.last_name),
   ("password_hash", ud.password)]

/-- The row `create_user` persists.  `User` declares no `password_hash`
column, so the extra `password_hash` key in the dictionary maps to no column
and nothing password-derived reaches the table; the remaining keys fill the
declared columns, `is_veriied` keeps its default `False`, and the database
sets `created_at` (`now`) and leaves `updated_at` null.  The `uid` is the
fresh `uuid4` default. -/
def create_user_row (ud : UserCreateModel) (uid : String) (now : Nat) : User :=
  { uid := uid, username := ud.username, email := ud.email,
    first_name := ud.first_name, last_name := ud.last_name,
    is_veriied := false, created_at := now, updated_at := none }

/-- `UserService.create_user`: persist the new row and return it. -/
def create_user (ud : UserCreateModel) (uid : String) (now : Nat)
    (db : List User) : User × List User :=
  let new_user := create_user_row ud uid now
  (new_user, db ++ [new_user])

/-! ## Token guard (src/auth/depedencies.py) -/

/-- The `detail` field of a FastAPI `HTTPException` as raised by this code:
either a plain string or the two-field error/resolution dictionary. -/
inductive ErrorDetail where
  | msg (s : String)
  | errRes (error resolution : String)
deriving Repr, DecidableEq

structure HTTPExc where
  status_code : Nat
  detail : ErrorDetail
deriving Repr, DecidableEq

/-- The 403 raised by `TokenBearer.__call__` both for a failed decode and for
a blocklisted jti. -/
def invalidOrRevokedExc : HTTPExc :=
  ⟨403, .errRes "this token is invalid or has been revoked" "Please get new token"⟩

/-- Which concrete `TokenBearer` subclass is guarding the route. -/
inductive BearerKind where
  | access
  | refresh
deriving Repr, DecidableEq

/-- `verify_token_data` of the two subclasses.  `token_data` is the decoded
claims dictionary; it always has the four fields issued tokens carry, so the
Python truthiness test `token_data and ...` is satisfied.
`AccessTokenBearer` raises 403 "Provide access token" when `refresh` is set;
`RefreshTokenBearer` raises 403 "Provide refresh token" when it is not. -/
def verify_token_data : BearerKind → Claims → Option HTTPExc
  | .access, token_data =>
    if token_data.refresh then some ⟨403, .msg "Provide access token"⟩ else none
  | .refresh, token_data =>
    if !token_data.refresh then some ⟨403, .msg "Provide refresh token"⟩ else none

/-- `TokenBearer.__call__` after the bearer credentials have been extracted:
decode; on decode failure raise the invalid/revoked 403; then test the
truthiness of `token_in_block_list(jti)` and raise the same 403 when truthy;
then run the subclass type check; otherwise return the claims. -/
def tokenBearerCall (kind : BearerKind) (cfg : Settings) (bl : Blocklist)
    (now : Nat) (token : TokenString) : Except HTTPExc Claims :=
  match decode_token cfg token now with
  | none => .error invalidOrRevokedExc
  | some token_data =>
    if pyTruthyOptStr (token_in_block_list bl token_data.jti now) then
      .error invalidOrRevokedExc
    else
      match verify_token_data kind token_data with
      | some e => .error e
      | none => .ok token_data

/-! ## Auth endpoints (src/auth/routes.py) -/

/-- The outcome of running one route handler: a successful body, a raised
`HTTPException`, or an uncaught Python exception (named), which propagates
to the global exception handler in src/__init__.py. -/
inductive PyOutcome (α : Type) where
  | ok (a : α)
  | httpExc (e : HTTPExc)
  | uncaught (excName : String)
deriving Repr, DecidableEq

/-- The JSONResponse body of a successful login. -/
structure LoginOkBody where
  message : String
  access_token : TokenString
  refresh_token : TokenString
  user_email : String
  user_uid : String
deriving Repr, DecidableEq

/-- The `login` handler.  It looks the user up by email; when a row is found
it evaluates `user.password_hash` — an attribute the `User` model does not
declare, so that access raises `AttributeError` — and would otherwise verify
the password and mint the access and refresh tokens; when no row is found,
or the password check fails, control reaches the final generic 403.
`checkpw` is the external bcrypt primitive, `jti1`/`jti2` the two fresh
uuid4 values. -/
def login (checkpw : ByteArray → ByteArray → Bool) (cfg : Settings)
    (db : List User) (body : UserLoginModel) (now : Nat)
    (jti1 jti2 : String) : PyOutcome LoginOkBody :=
  match get_user_by_email db body.email with
  | some user =>
    match user.getattr "password_hash" with
    | none => .uncaught "AttributeError"
    | some (.str h) =>
      if verify_password checkpw body.password h then
        .ok { message := "Login successful",
              access_token := generate_access_token cfg
                [("email", user.email), ("user_uid", user.uid)] none false now jti1,
              refresh_token := generate_access_token cfg
                [("email", user.email), ("user_uid", user.uid)]
                (some (86400 * cfg.REFRESH_TOKEN_EXPIRY)) true now jti2,
              user_email := user.email, user_uid := user.uid }
      else .httpExc ⟨403, .msg "Invalid email or password"⟩
    | some _ => .uncaught "TypeError"
  | none => .httpExc ⟨403, .msg "Invalid email or password"⟩

/-- The JSONResponse body of a successful refresh. -/
structure RefreshOkBody where
  access_token : TokenString
deriving Repr, DecidableEq

/-- The `get_new_access_token` handler (`GET /auth/refresh_token`): the
`RefreshTokenBearer` dependency runs first; on success the handler re-checks
`exp` (`expiry_timestamp and datetime.fromtimestamp(expiry_timestamp) >
datetime.now()`: nonzero and strictly in the future) and mints a new access
token carrying `token_details["user"]`; otherwise it raises 400.  The result
is paired with the blocklist state the request leaves behind — the guard
only issues a GET against the store. -/
def get_new_access_token (cfg : Settings) (bl : Blocklist) (now : Nat)
    (token : TokenString) (newJti : String) :
    PyOutcome RefreshOkBody × Blocklist :=
  match tokenBearerCall .refresh cfg bl now token with
  | .error e => (.httpExc e, bl)
  | .ok token_details =>
    if token_details.exp ≠ 0 ∧ now < token_details.exp then
      (.ok { access_token :=
               generate_access_token cfg token_details.user none false now newJti }, bl)
    else
      (.httpExc ⟨400, .msg "Invalid or expired token"⟩, bl)

/-- The `create_user_account` handler (`POST /auth/signup`): reject with 403
when a user with the email already exists, otherwise persist via
`UserService.create_user` and return the new row. -/
def create_user_account (db : List User) (ud : UserCreateModel) (uid : String)
    (now : Nat) : PyOutcome User × List User :=
  match get_user_by_email db ud.email with
  | some _ => (.httpExc ⟨403, .msg "user already exist with this email"⟩, db)
  | none =>
    let r := create_user ud uid now db
    (.ok r.1, r.2)

/-! ## Final HTTP responses (src/__init__.py)

A raised `HTTPException` is rendered by FastAPI as its status code and
detail; any other uncaught exception reaches `global_exception_handler`,
which answers 500 with the fixed "Internal server error" body. -/

inductive ResponseBody (α : Type) where
  | payload (a : α)
  | detail (d : ErrorDetail)
  | internalError
deriving Repr, DecidableEq

def finalResponse {α : Type} (okStatus : Nat) :
    PyOutcome α → Nat × ResponseBody α
  | .ok a => (okStatus, .payload a)
  | .httpExc e => (e.status_code, .detail e.detail)
  | .uncaught _ => (500, .internalError)

/-! ## Revocation-store commands issued per request

To settle reachability of the revocation write, each registered route is
given the exact sequence of Redis commands its handler (dependencies
included) issues against `token_blocklist`.  The application registers, in
src/__init__.py: `GET /health`, the auth router (`/api/v1/auth/signup`,
`/api/v1/auth/login`, `GET /api/v1/auth/refresh_token`) and the books router
(list, get, create, update, delete under `/api/v1/books`, each guarded by
`AccessTokenBearer`).  There is no logout route.  Only
src/auth/depedencies.py and src/db/redis.py touch the store; the books
module does not import it. -/

inductive RedisCmd where
  | setCmd (name value : String) (ex : Nat)
  | getCmd (name : String)
deriving Repr, DecidableEq

def RedisCmd.isWrite : RedisCmd → Bool
  | .setCmd _ _ _ => true
  | .getCmd _ => false

/-- The commands `add_jti_to_block_list` issues: one SET with `JTI_EXPIRY`. -/
def add_jti_to_block_list_cmds (jti : String) : List RedisCmd :=
  [.setCmd jti "" JTI_EXPIRY]

/-- The commands `token_in_block_list` issues: one GET. -/
def token_in_block_list_cmds (jti : String) : List RedisCmd :=
  [.getCmd jti]

/-- The commands a `TokenBearer` dependency issues for one request: nothing
when decode fails, otherwise the single blocklist GET. -/
def tokenBearerCmds (cfg : Settings) (now : Nat) (token : TokenString) :
    List RedisCmd :=
  match decode_token cfg token now with
  | none => []
  | some token_data => token_in_block_list_cmds token_data.jti

/-- The routes the application registers (src/__init__.py together with
src/auth/routes.py and src/books/routes.py). -/
inductive RegisteredRoute where
  | health
  | auth_signup
  | auth_login
  | auth_refresh_token
  | books_get_all
  | books_get_one
  | books_create
  | books_update
  | books_delete
deriving Repr, DecidableEq

def registeredRoutes : List RegisteredRoute :=
  [.health, .auth_signup, .auth_login, .auth_refresh_token,
   .books_get_all, .books_get_one, .books_create, .books_update, .books_delete]

/-- The Redis commands one request to each registered route issues: the
health check and the signup/login handlers never touch the store; the
refresh endpoint runs `RefreshTokenBearer`; every books handler runs
`AccessTokenBearer`.  No handler calls `add_jti_to_block_list`. -/
def routeRedisCmds (cfg : Settings) (now : Nat) (token : TokenString) :
    RegisteredRoute → List RedisCmd
  | .health => []
  | .auth_signup => []
  | .auth_login => []
  | .auth_refresh_token => tokenBearerCmds cfg now token
  | .books_get_all => tokenBearerCmds cfg now token
  | .books_get_one => tokenBearerCmds cfg now token
  | .books_create => tokenBearerCmds cfg now token
  | .books_update => tokenBearerCmds cfg now token
  | .books_delete => tokenBearerCmds cfg now token

/-- Replaying a command sequence against the store: SET writes, GET leaves
the store as it is. -/
def runRedis (now : Nat) (bl : Blocklist) : List RedisCmd → Blocklist
  | [] => bl
  | .setCmd name value ex :: rest => runRedis now (redisSet bl name value ex now) rest
  | .getCmd _ :: rest => runRedis now bl rest

/-! ## Basic lemmas -/

/-- As written, `token_in_block_list` discards what the GET returned and
falls off the end of the function: its value is `None` for every store
state, key and time. -/
theorem token_in_block_list_eq_none (bl : Blocklist) (jti : String) (now : Nat) :
    token_in_block_list bl jti now = none := rfl

/-- Decoding a structurally valid token succeeds exactly when the algorithm
and key match the configuration and the expiry is still in the future. -/
theorem decode_token_valid_eq (cfg : Settings) (j : Jwt) (now : Nat) :
    decode_token cfg (.valid j) now =
      if j.alg = cfg.JWT_ALGORITHM ∧ j.key = cfg.JWT_SECRET_KEY ∧ now < j.claims.exp
      then some j.claims else none := by
  by_cases h1 : j.alg = cfg.JWT_ALGORITHM <;>
    by_cases h2 : j.key = cfg.JWT_SECRET_KEY <;>
      by_cases h3 : now < j.claims.exp <;>
        simp [decode_token, jwtDecode, h1, h2, h3, Nat.le_of_not_lt, Nat.not_le.mpr]

/-- Full characterisation of `decode_token` success. -/
theorem decode_token_some_iff {cfg : Settings} {t : TokenString} {now : Nat}
    {c : Claims} :
    decode_token cfg t now = some c ↔
      t = .valid ⟨c, cfg.JWT_SECRET_KEY, cfg.JWT_ALGORITHM⟩ ∧ now < c.exp := by
  cases t with
  | malformed raw => simp [decode_token, jwtDecode]
  | valid j =>
    rw [decode_token_valid_eq]
    constructor
    · intro h
      split_ifs at h with hc
      · rw [Option.some.injEq] at h
        subst h
        obtain ⟨h1, h2, h3⟩ := hc
        refine ⟨?_, h3⟩
        cases j
        simp_all
    · intro hyp
      obtain ⟨heq, hlt⟩ := hyp
      injection heq with hj
      subst hj
      simp [hlt]

/-- A successfully decoded token is unexpired at decode time. -/
theorem decode_token_now_lt_exp {cfg : Settings} {t : TokenString} {now : Nat}
    {c : Claims} (h : decode_token cfg t now = some c) : now < c.exp :=
  (decode_token_some_iff.mp h).2

/-- Decoding a token issued by `generate_access_token` with the default
expiry, at the issuance instant, yields exactly the issued claims, provided
the configured access-token lifetime is positive. -/
theorem decode_generate_default (cfg : Settings) (user_data : List (String × String))
    (refresh : Bool) (now : Nat) (jti : String) (h : 0 < cfg.ACCESS_TOKEN_EXPIRY) :
    decode_token cfg (generate_access_token cfg user_data none refresh now jti) now
      = some { user := user_data, exp := now + cfg.ACCESS_TOKEN_EXPIRY,
               jti := jti, refresh := refresh } := by
  apply decode_token_some_iff.mpr
  constructor
  · rfl
  · exact Nat.lt_add_of_pos_right h

/-! ## Claim theorems -/

/-- C1: the claim says that after `add_jti_to_block_list jti` the check
`token_in_block_list jti` returns true until the TTL elapses, that it always
returns a boolean, and that the Token Guard rejects a token whose jti has
been revoked.  The code contradicts this: the revocation record is present
in the store (third conjunct shows the GET would find it), but
`token_in_block_list` returns `None` (first conjunct), which is falsy
(second conjunct), and consequently the access guard accepts a valid
non-refresh token whose jti was just revoked (fourth conjunct). -/
theorem revoked_jti_never_detected (bl : Blocklist) (jti : String) (now : Nat) :
    token_in_block_list (add_jti_to_block_list bl jti now) jti now = none
    ∧ pyTruthyOptStr (token_in_block_list (add_jti_to_block_list bl jti now) jti now) = false
    ∧ redisGet (add_jti_to_block_list bl jti now) jti now = some ""
    ∧ ∀ (cfg : Settings) (t : TokenString) (c : Claims),
        decode_token cfg t now = some c → c.refresh = false →
        tokenBearerCall .access cfg (add_jti_to_block_list bl jti now) now t = .ok c := by
  refine ⟨rfl, rfl, ?_, ?_⟩
  · simp [add_jti_to_block_list, redisSet, redisGet, JTI_EXPIRY]
  · intro cfg t c hdec hrefresh
    simp [tokenBearerCall, hdec, token_in_block_list, pyTruthyOptStr,
      verify_token_data, hrefresh]

/-- C1 witness: on the empty store at time 0, revoking "j1" leaves the check
at `none`/falsy while the record sits in the store, and the access guard
accepts a freshly issued access token carrying jti "j1". -/
theorem revoked_jti_never_detected_witness :
    tokenBearerCall .access defaultConfig (add_jti_to_block_list [] "j1" 0) 0
      (.valid ⟨⟨[("email", "a@x.com")], 3600, "j1", false⟩, "", ""⟩)
      = .ok ⟨[("email", "a@x.com")], 3600, "j1", false⟩ :=
  (revoked_jti_never_detected [] "j1" 0).2.2.2 defaultConfig
    (.valid ⟨⟨[("email", "a@x.com")], 3600, "j1", false⟩, "", ""⟩)
    ⟨[("email", "a@x.com")], 3600, "j1", false⟩ (by decide) rfl

/-- C2: the claim says a successful signup persists the bcrypt hash produced
by `generate_password_hash` and never the plaintext.  The code contradicts
this: the dictionary handed to the `User` constructor binds the
`password_hash` key to the plaintext password itself (the hashing call is
commented out), the persisted `User` entity declares no `password_hash`
attribute at all, and the persisted row is therefore independent of the
submitted password — no bcrypt hash of it is ever stored. -/
theorem signup_persists_no_password_hash (ud : UserCreateModel) (uid : String)
    (now : Nat) (db : List User) :
    (create_user_dict ud).lookup "password_hash" = some ud.password
    ∧ "password_hash" ∉ User.fieldNames
    ∧ (∀ u : User, u.getattr "password_hash" = none)
    ∧ (create_user ud uid now db).2 = db ++ [create_user_row ud uid now]
    ∧ ∀ p₁ p₂ : String,
        create_user_row { ud with password := p₁ } uid now
          = create_user_row { ud with password := p₂ } uid now := by
  refine ⟨rfl, by decide, ?_, rfl, fun p₁ p₂ => rfl⟩
  intro u
  simp [User.getattr]

/-- C3: the claim says some operation invoked on logout records the
presented jti in the blocklist, i.e. that `add_jti_to_block_list` is
reachable from a public endpoint.  The code contradicts this: every
registered route issues only non-write Redis commands (first conjunct), so
the store a request leaves behind is the store it found (second conjunct);
the revocation write exists and would write (third conjunct) but no handler
issues it — there is no logout route at all. -/
theorem no_route_reaches_revocation_write (cfg : Settings) (now : Nat)
    (token : TokenString) (r : RegisteredRoute) (bl : Blocklist) (jti : String) :
    (routeRedisCmds cfg now token r).all (fun cmd => !cmd.isWrite) = true
    ∧ runRedis now bl (routeRedisCmds cfg now token r) = bl
    ∧ (add_jti_to_block_list_cmds jti).any RedisCmd.isWrite = true := by
  have hb : (tokenBearerCmds cfg now token).all (fun cmd => !cmd.isWrite) = true
      ∧ ∀ bl' : Blocklist, runRedis now bl' (tokenBearerCmds cfg now token) = bl' := by
    unfold tokenBearerCmds
    cases decode_token cfg token now <;>
      exact ⟨rfl, fun bl' => rfl⟩
  refine ⟨?_, ?_, rfl⟩ <;>
    cases r <;>
      simp [routeRedisCmds, runRedis, hb.1, hb.2 bl]

/-- A user row as persisted by signup, used as the concrete database content
for the login scenarios. -/
def aliceRow : User :=
  { uid := "u-1", username := "arun", email := "a@x.com", first_name := "arun",
    last_name := "kumar", is_veriied := false, created_at := 0, updated_at := none }

/-- C4: the claim says login with a correct email but wrong password and
login with a nonexistent email produce the same generic invalid-credentials
response.  The code contradicts this: with the registered user `aliceRow`,
the correct-email run evaluates `user.password_hash`, an attribute the
`User` model does not declare, so it dies in `AttributeError` and the global
handler answers 500 "Internal server error", while the nonexistent-email run
answers 403 "Invalid email or password" — two observably different
responses. -/
theorem login_failure_responses_differ (checkpw : ByteArray → ByteArray → Bool)
    (cfg : Settings) (now : Nat) (jti1 jti2 : String) :
    finalResponse 200 (login checkpw cfg [aliceRow] ⟨"a@x.com", "wrong-pass"⟩ now jti1 jti2)
      = (500, .internalError)
    ∧ finalResponse 200 (login checkpw cfg [aliceRow] ⟨"b@y.com", "whatever"⟩ now jti1 jti2)
      = (403, .detail (.msg "Invalid email or password"))
    ∧ ((500, (.internalError : ResponseBody LoginOkBody))
        ≠ (403, .detail (.msg "Invalid email or password"))) :=
  ⟨rfl, rfl, by decide⟩

/-- The configuration the C5 counterexample uses: ACCESS_TOKEN_EXPIRY set to
60 seconds instead of the default 3600. -/
def cfg60 : Settings := { ACCESS_TOKEN_EXPIRY := 60 }

/-- C5 counterexample: the claim — for every configured value of
ACCESS_TOKEN_EXPIRY, revoke records the entry with that TTL — is false: at
`cfg60` (ACCESS_TOKEN_EXPIRY = 60), revoking "jti-1" at time 0 stores the
entry expiring at 3600, not at 0 + 60. -/
theorem revoke_ttl_tracks_config_refuted :
    ¬ ∀ (cfg : Settings) (bl : Blocklist) (jti : String) (now : Nat),
        (add_jti_to_block_list bl jti now).find? (fun p => p.1 = jti)
          = some (jti, ⟨"", now + cfg.ACCESS_TOKEN_EXPIRY⟩) :=
  fun hclaim => absurd (hclaim cfg60 [] "jti-1" 0) (by decide)

/-- C5 amended: for every jti, `add_jti_to_block_list` records the
revocation entry with TTL equal to the module constant `JTI_EXPIRY` = 3600
seconds; this coincides with the default value of
`Config.ACCESS_TOKEN_EXPIRY` but is independent of the configured value. -/
theorem revoke_ttl_fixed_constant (bl : Blocklist) (jti : String) (now : Nat) :
    (add_jti_to_block_list bl jti now).find? (fun p => p.1 = jti)
      = some (jti, ⟨"", now + JTI_EXPIRY⟩)
    ∧ JTI_EXPIRY = 3600
    ∧ defaultConfig.ACCESS_TOKEN_EXPIRY = JTI_EXPIRY := by
  refine ⟨?_, rfl, rfl⟩
  simp [add_jti_to_block_list, redisSet]

/-- C6: decoding a token freshly issued with refresh=false succeeds and
returns claims whose refresh field is false and whose user field is the
original payload, for every payload, provided the configured access-token
lifetime is positive (so the token is unexpired at the issuance instant). -/
theorem decode_of_freshly_issued_access_token (cfg : Settings)
    (payload : List (String × String)) (now : Nat) (jti : String)
    (h : 0 < cfg.ACCESS_TOKEN_EXPIRY) :
    ∃ c : Claims,
      decode_token cfg (generate_access_token cfg payload none false now jti) now = some c
      ∧ c.refresh = false ∧ c.user = payload :=
  ⟨_, decode_generate_default cfg payload false now jti h, rfl, rfl⟩

/-- C6 witness: the default configuration has a positive access-token
lifetime, and a concrete payload round-trips with refresh = false. -/
theorem decode_of_freshly_issued_access_token_witness :
    0 < defaultConfig.ACCESS_TOKEN_EXPIRY
    ∧ ∃ c : Claims,
        decode_token defaultConfig
          (generate_access_token defaultConfig
            [("email", "a@x.com"), ("user_uid", "u-1")] none false 0 "j2") 0 = some c
        ∧ c.refresh = false ∧ c.user = [("email", "a@x.com"), ("user_uid", "u-1")] :=
  ⟨by decide,
   decode_of_freshly_issued_access_token defaultConfig
     [("email", "a@x.com"), ("user_uid", "u-1")] 0 "j2" (by decide)⟩

/-- C7: for every token that decodes successfully and whose jti is not
flagged by the blocklist check, the access guard rejects with the 403
"Provide access token" failure exactly when the claims have refresh = true,
the refresh guard rejects with the 403 "Provide refresh token" failure
exactly when they have refresh = false, and otherwise each guard accepts and
returns the claims. -/
theorem guard_enforces_token_type (cfg : Settings) (bl : Blocklist) (now : Nat)
    (t : TokenString) (c : Claims)
    (hdec : decode_token cfg t now = some c)
    (hrev : pyTruthyOptStr (token_in_block_list bl c.jti now) = false) :
    (tokenBearerCall .access cfg bl now t =
      if c.refresh then .error ⟨403, .msg "Provide access token"⟩ else .ok c)
    ∧ (tokenBearerCall .refresh cfg bl now t =
      if c.refresh then .ok c else .error ⟨403, .msg "Provide refresh token"⟩) := by
  constructor <;>
    · simp only [tokenBearerCall, hdec, hrev, Bool.false_eq_true, if_false]
      cases hc : c.refresh <;> simp [verify_token_data, hc]

/-- C7 witness: a concrete access-type token under the default configuration
is accepted by the access guard and rejected by the refresh guard. -/
theorem guard_enforces_token_type_witness :
    (tokenBearerCall .access defaultConfig [] 0
        (.valid ⟨⟨[("email", "e")], 3600, "ja", false⟩, "", ""⟩)
      = if (⟨[("email", "e")], 3600, "ja", false⟩ : Claims).refresh
        then .error ⟨403, .msg "Provide access token"⟩
        else .ok ⟨[("email", "e")], 3600, "ja", false⟩)
    ∧ (tokenBearerCall .refresh defaultConfig [] 0
        (.valid ⟨⟨[("email", "e")], 3600, "ja", false⟩, "", ""⟩)
      = if (⟨[("email", "e")], 3600, "ja", false⟩ : Claims).refresh
        then .ok ⟨[("email", "e")], 3600, "ja", false⟩
        else .error ⟨403, .msg "Provide refresh token"⟩) :=
  guard_enforces_token_type defaultConfig [] 0 _ _ rfl rfl

/-- C8: for every input token, `decode_token` either returns the claims the
underlying JWT decode produced, or returns `None` when the decode signalled
any `PyJWTError` (malformed structure, wrong algorithm, bad signature,
elapsed expiry); no error escapes. -/
theorem decode_token_never_raises (cfg : Settings) (t : TokenString) (now : Nat) :
    (∃ c : Claims, jwtDecode t cfg.JWT_SECRET_KEY cfg.JWT_ALGORITHM now = .ok c
        ∧ decode_token cfg t now = some c)
    ∨ (∃ e : PyJWTError, jwtDecode t cfg.JWT_SECRET_KEY cfg.JWT_ALGORITHM now = .error e
        ∧ decode_token cfg t now = none) := by
  cases h : jwtDecode t cfg.JWT_SECRET_KEY cfg.JWT_ALGORITHM now with
  | ok c => exact .inl ⟨c, rfl, by simp [decode_token, h]⟩
  | error e => exact .inr ⟨e, rfl, by simp [decode_token, h]⟩

/-- C9: a request to the refresh endpoint carrying a valid, unexpired
refresh-type token returns a new access token minted over the same `user`
payload, the returned token decodes to claims with refresh = false and the
original payload, and the revocation store is returned unchanged. -/
theorem refresh_endpoint_new_access_token (cfg : Settings) (bl : Blocklist)
    (now : Nat) (t : TokenString) (c : Claims) (newJti : String)
    (hdec : decode_token cfg t now = some c) (href : c.refresh = true)
    (hpos : 0 < cfg.ACCESS_TOKEN_EXPIRY) :
    get_new_access_token cfg bl now t newJti =
      (.ok { access_token := generate_access_token cfg c.user none false now newJti }, bl)
    ∧ decode_token cfg (generate_access_token cfg c.user none false now newJti) now
      = some { user := c.user, exp := now + cfg.ACCESS_TOKEN_EXPIRY,
               jti := newJti, refresh := false } := by
  have hlt : now < c.exp := decode_token_now_lt_exp hdec
  have hexp0 : c.exp ≠ 0 := by omega
  constructor
  · have hguard : tokenBearerCall .refresh cfg bl now t = .ok c := by
      simp [tokenBearerCall, hdec, token_in_block_list, pyTruthyOptStr,
        verify_token_data, href]
    unfold get_new_access_token
    rw [hguard]
    simp [hexp0, hlt]
  · exact decode_generate_default cfg c.user false now newJti hpos

/-- C9 witness: a concrete unexpired refresh token under the default
configuration yields a fresh access token over the same payload and leaves
the empty blocklist empty. -/
theorem refresh_endpoint_new_access_token_witness :
    get_new_access_token defaultConfig [] 0
        (.valid ⟨⟨[("email", "e")], 200, "jr", true⟩, "", ""⟩) "jn"
      = (.ok { access_token :=
            generate_access_token defaultConfig [("email", "e")] none false 0 "jn" }, [])
    ∧ decode_token defaultConfig
        (generate_access_token defaultConfig [("email", "e")] none false 0 "jn") 0
      = some { user := [("email", "e")], exp := 0 + defaultConfig.ACCESS_TOKEN_EXPIRY,
               jti := "jn", refresh := false } :=
  refresh_endpoint_new_access_token defaultConfig [] 0
    (.valid ⟨⟨[("email", "e")], 200, "jr", true⟩, "", ""⟩)
    ⟨[("email", "e")], 200, "jr", true⟩ "jn" rfl rfl (by decide)

/-- C10: the persisted `User` entity declares no password_hash attribute, so
no password-derived credential is stored in a user row, and for every login
request whose email matches a stored user the handler dies reading
`user.password_hash` (AttributeError, rendered 500 by the global handler)
instead of completing password verification. -/
theorem user_row_has_no_password_hash (checkpw : ByteArray → ByteArray → Bool)
    (cfg : Settings) (db : List User) (body : UserLoginModel) (u : User)
    (now : Nat) (jti1 jti2 : String)
    (h : get_user_by_email db body.email = some u) :
    "password_hash" ∉ User.fieldNames
    ∧ u.getattr "password_hash" = none
    ∧ login checkpw cfg db body now jti1 jti2 = .uncaught "AttributeError"
    ∧ finalResponse 200 (login checkpw cfg db body now jti1 jti2)
      = (500, .internalError) := by
  have hget : u.getattr "password_hash" = none := by simp [User.getattr]
  have hlog : login checkpw cfg db body now jti1 jti2 = .uncaught "AttributeError" := by
    simp [login, h, hget]
  exact ⟨by decide, hget, hlog, by simp [hlog, finalResponse]⟩

/-- C10 witness: with the one-row database holding `aliceRow`, a login for
that email dies in AttributeError and is rendered as a 500. -/
theorem user_row_has_no_password_hash_witness :
    "password_hash" ∉ User.fieldNames
    ∧ aliceRow.getattr "password_hash" = none
    ∧ login (fun _ _ => false) defaultConfig [aliceRow] ⟨"a@x.com", "pw"⟩ 0 "j1" "j2"
      = .uncaught "AttributeError"
    ∧ finalResponse 200
        (login (fun _ _ => false) defaultConfig [aliceRow] ⟨"a@x.com", "pw"⟩ 0 "j1" "j2")
      = (500, .internalError) :=
  user_row_has_no_password_hash (fun _ _ => false) defaultConfig [aliceRow]
    ⟨"a@x.com", "pw"⟩ aliceRow 0 "j1" "j2" rfl

end Bookly
